import Mathlib

/-!
Verification development for the KoboToolbox → PostgreSQL migration pipeline
(src/pipeline.py).  The script is embedded shallowly: pandas string
operations become list/char functions, the dataframe becomes an explicit
column-oriented table, and the psycopg2 session becomes a trace of executed
SQL statements plus connection/cursor flags.
-/

set_option autoImplicit false

namespace Pipeline

/-! ### Python string primitives

The column chain in the script is
`df.columns.str.strip().str.lower().str.replace("?","").str.replace(" ","_")
.str.replace("&","and").str.replace("-","_")`.
`str.strip` strips Python whitespace at both ends; `str.lower` lowercases
(ASCII is all that occurs in these headers); `str.replace` replaces every
occurrence of a literal pattern (all patterns here are single characters).
-/

/-- Python whitespace characters (`str.strip` default set, ASCII part). -/
def isPyWs (c : Char) : Bool :=
  c == ' ' || c == '\t' || c == '\n' || c == '\x0b' || c == '\x0c' || c == '\r'

/-- `str.strip()` on a character list: drop whitespace at both ends. -/
def pyStripList (l : List Char) : List Char :=
  ((l.dropWhile isPyWs).reverse.dropWhile isPyWs).reverse

/-- `str.strip()`. -/
def pyStrip (s : String) : String := ⟨pyStripList s.data⟩

/-- ASCII lowercasing of one character (`str.lower`; the headers of this
pipeline contain only ASCII letters): shift the code points of A–Z by 32. -/
def lowerChar (c : Char) : Char :=
  if 65 ≤ c.toNat ∧ c.toNat ≤ 90 then Char.ofNat (c.toNat + 32) else c

/-- `str.lower()`. -/
def pyLower (s : String) : String := ⟨s.data.map lowerChar⟩

/-- `str.replace(pattern, repl)` for a single-character pattern: replace
every occurrence of `c` by the list `r`. -/
def replaceCharList (c : Char) (r : List Char) : List Char → List Char
  | [] => []
  | x :: xs =>
    if x = c then r ++ replaceCharList c r xs else x :: replaceCharList c r xs

/-- The column-name canonicalization chain of the script, on character
lists: strip → lower → remove `?` → space → `_` → `&` → `and` → `-` → `_`. -/
def canonList (l : List Char) : List Char :=
  replaceCharList '-' ['_']
    (replaceCharList '&' ['a', 'n', 'd']
      (replaceCharList ' ' ['_']
        (replaceCharList '?' []
          ((pyStripList l).map lowerChar))))

/-- The column-name canonicalization chain of the script
(`df.columns.str.strip().str.lower().str.replace("?","",regex=False)
.str.replace(" ","_").str.replace("&","and").str.replace("-","_")`). -/
def canonHeader (s : String) : String := ⟨canonList s.data⟩

/-! ### Values

A pandas cell in this script is one of: a string, an inferred integer,
float NaN (a missing field of the parsed CSV), Python `None` (written by
`df.where(pd.notnull(df), None)`), `NaT` (produced by
`pd.to_datetime(..., errors="coerce")`), a parsed timestamp, or a Python
bool (the coerced rural-migration flag).  Timestamps are abstracted to
their integer epoch value. -/
inductive PVal where
  | vNone
  | vNaN
  | vNaT
  | vStr (s : String)
  | vInt (n : Int)
  | vTime (t : Int)
  | vBool (b : Bool)
  deriving DecidableEq, Repr

/-- The raw CSV body, already split into a header row and data rows; a
cell is `none` when the field is empty/absent (pandas parses it as NaN). -/
structure RawCsv where
  headers : List String
  rows : List (List (Option String))
  deriving DecidableEq, Repr

/-- `pd.read_csv(..., on_bad_lines="skip")`: rows with more fields than
the header are skipped; short rows are padded with missing values. -/
def parseRows (w : Nat) (rows : List (List (Option String))) :
    List (List (Option String)) :=
  (rows.filter (fun r => decide (r.length ≤ w))).map
    (fun r => r ++ List.replicate (w - r.length) none)

/-- Decimal value of a digit list. -/
def digitsToNat (l : List Char) : Nat :=
  l.foldl (fun acc c => acc * 10 + (c.toNat - 48)) 0

/-- `int(s)`-style parse used by pandas column type inference (this
pipeline's numeric columns are integral): an optional sign followed by
one or more decimal digits. -/
def parseIntStr (s : String) : Option Int :=
  match s.data with
  | [] => none
  | '-' :: ds =>
    if ds ≠ [] ∧ ds.all Char.isDigit then some (-(digitsToNat ds : Int))
    else none
  | ds =>
    if ds.all Char.isDigit then some (digitsToNat ds : Int) else none

/-- Does a cell fit an integer column (missing cells do)? -/
def intParses (c : Option String) : Bool :=
  match c with
  | none => true
  | some s => (parseIntStr s).isSome

/-- Cell of a column that pandas inferred as numeric. -/
def intCellOf : Option String → PVal
  | none => .vNaN
  | some s => .vInt ((parseIntStr s).getD 0)

/-- Cell of a column that pandas kept as strings (object dtype). -/
def strCellOf : Option String → PVal
  | none => .vNaN
  | some s => .vStr s

/-- pandas per-column type inference: a column whose present cells all
parse as integers becomes an integer column, otherwise it stays strings;
missing cells are NaN either way. -/
def inferColumn (cells : List (Option String)) : List PVal :=
  if cells.all intParses then cells.map intCellOf else cells.map strCellOf

/-- The in-memory dataframe, column oriented: `headers` names the
columns, `cols` holds one value list per column (all of equal length). -/
structure DFrame where
  headers : List String
  cols : List (List PVal)
  deriving DecidableEq, Repr

/-- Cells of column `i` across the kept rows. -/
def colCells (rows : List (List (Option String))) (i : Nat) :
    List (Option String) :=
  rows.map (fun r => r.getD i none)

/-- `pd.read_csv(io.StringIO(response.text), sep=";", on_bad_lines="skip")`
at the structured level (the semicolon tokenization itself is outside the
model: the body is taken already split into header and cell rows). -/
def readCsv (raw : RawCsv) : DFrame :=
  { headers := raw.headers
    cols := (List.range raw.headers.length).map
      (fun i => inferColumn (colCells (parseRows raw.headers.length raw.rows) i)) }

/-- `df.where(pd.notnull(df), None)` on one cell: pandas null values
(NaN, NaT, None) become Python `None`; everything else is kept. -/
def whereVal : PVal → PVal
  | .vNaN => .vNone
  | .vNaT => .vNone
  | .vNone => .vNone
  | .vStr s => .vStr s
  | .vInt n => .vInt n
  | .vTime t => .vTime t
  | .vBool b => .vBool b

/-- `df = df.where(pd.notnull(df), None)`. -/
def whereNotNull (df : DFrame) : DFrame :=
  { headers := df.headers, cols := df.cols.map (List.map whereVal) }

/-- `pd.to_datetime(v, errors="coerce")` on one cell, parameterized by the
timestamp grammar `p` (the dateutil parser is treated as an oracle):
an unparseable string, a null value and a bool coerce to `NaT`; an
integer is read as an epoch instant; a timestamp is kept. -/
def toDatetimeCoerce (p : String → Option Int) : PVal → PVal
  | .vStr s => match p s with
    | some t => .vTime t
    | none => .vNaT
  | .vNone => .vNaT
  | .vNaN => .vNaT
  | .vNaT => .vNaT
  | .vInt n => .vTime n
  | .vTime t => .vTime t
  | .vBool _ => .vNaT

/-- Position of a column label, first match (`df[...]` lookup). -/
def findKey (k : String) : List String → Option Nat
  | [] => none
  | h :: t => if h = k then some 0 else (findKey k t).map (· + 1)

/-- Replace column `j` by its image under `f` (a `df[c] = f(df[c])`
assignment). -/
def mapColAt (df : DFrame) (j : Nat) (f : PVal → PVal) : DFrame :=
  { headers := df.headers
    cols := df.cols.set j ((df.cols.getD j []).map f) }

/-- The error kinds the run can raise before/at the database:
a non-200 HTTP status (`raise Exception(f"Failed to fetch data: ...")`),
a missing column (`KeyError`, the spec's SchemaMismatchError), and a
parameter psycopg2/PostgreSQL cannot store (the spec's DatabaseError). -/
inductive PipeError where
  | fetchError (status : Nat)
  | keyError (k : String)
  | adaptError (s : String)
  deriving DecidableEq, Repr

/-- Step 2 of the script: canonicalize the column names, convert nulls to
`None`, then parse the two timestamp columns (`df["start"]` and
`df["end"]` raise `KeyError` when absent).  The assignments
`df["start"] = ...` and `df["end"] = ...` replace existing columns and
leave the header list unchanged, so both lookups are over the same
canonicalized header list. -/
def normalize (p : String → Option Int) (raw : RawCsv) :
    Except PipeError DFrame :=
  match findKey "start" (raw.headers.map canonHeader) with
  | none => .error (.keyError "start")
  | some j =>
    match findKey "end" (raw.headers.map canonHeader) with
    | none => .error (.keyError "end")
    | some j2 =>
      .ok (mapColAt (mapColAt (whereNotNull
        ⟨raw.headers.map canonHeader, (readCsv raw).cols⟩)
        j (toDatetimeCoerce p)) j2 (toDatetimeCoerce p))

/-- Number of data rows of the frame (length of its first column). -/
def nRows (df : DFrame) : Nat :=
  match df.cols with
  | [] => 0
  | c :: _ => c.length

/-! ### Step 3: the loader -/

def schemaName : String := "migration"
def tableName : String := "migration_on_job_market"

/-- A SQL parameter value as psycopg2 sends it. -/
inductive SqlVal where
  | null
  | text (s : String)
  | int (n : Int)
  | bool (b : Bool)
  | timestamp (t : Int)
  | floatNaN
  deriving DecidableEq, Repr

/-- Statements the script executes through the cursor. -/
inductive SqlStmt where
  | createSchema (sch : String)
  | dropTable (sch tbl : String)
  | createTable (sch tbl : String)
  | insertRow (sch tbl : String) (params : List SqlVal)
  | commit
  deriving DecidableEq, Repr

/-- The three DDL statements issued before the insert loop:
`CREATE SCHEMA IF NOT EXISTS`, `DROP TABLE IF EXISTS`, `CREATE TABLE`. -/
def ddlStmts : List SqlStmt :=
  [.createSchema schemaName, .dropTable schemaName tableName,
   .createTable schemaName tableName]

/-- Adapting one parameter for the INSERT.  `None` becomes SQL NULL;
strings, ints, bools and real timestamps are storable.  `NaT` is not:
psycopg2 serializes it as the literal `NaT` (its `isoformat`), which
PostgreSQL rejects for a timestamp column, so the statement raises. -/
def adapt : PVal → Except PipeError SqlVal
  | .vNone => .ok .null
  | .vStr s => .ok (.text s)
  | .vInt n => .ok (.int n)
  | .vBool b => .ok (.bool b)
  | .vTime t => .ok (.timestamp t)
  | .vNaN => .ok .floatNaN
  | .vNaT => .error (.adaptError "NaT")

/-- Python truthiness of a cell value, as used by the `... or 0`
coercions in the insert loop. -/
def pyTruthy : PVal → Bool
  | .vNone => false
  | .vNaN => true
  | .vNaT => true
  | .vStr s => s ≠ ""
  | .vInt n => n ≠ 0
  | .vTime _ => true
  | .vBool b => b

/-- The `row[...] or 0` integer coercion of the insert loop. -/
def pyOr0 (v : PVal) : PVal :=
  if pyTruthy v then v else .vInt 0

/-- `str(v)` for the values that can occur in a cell. -/
def pyStr : PVal → String
  | .vNone => "None"
  | .vNaN => "nan"
  | .vNaT => "NaT"
  | .vStr s => s
  | .vInt n => toString n
  | .vTime t => toString t
  | .vBool b => if b then "True" else "False"

/-- `str(v).strip().lower() == "yes"`: the boolean coercion applied to
the rural-migration field. -/
def ruralCoerce (v : PVal) : Bool :=
  pyLower (pyStrip (pyStr v)) == "yes"

/-- `row[k]`: `KeyError` when the column is absent. -/
def rowGet (df : DFrame) (i : Nat) (k : String) : Except PipeError PVal :=
  match findKey k df.headers with
  | none => .error (.keyError k)
  | some j => .ok ((df.cols.getD j []).getD i .vNaN)

/-- `row.get(k, d)`: the defaulting lookup. -/
def rowGetD (df : DFrame) (i : Nat) (k : String) (d : PVal) : PVal :=
  match findKey k df.headers with
  | none => d
  | some j => (df.cols.getD j []).getD i .vNaN

/-- The single column looked up with `row.get(..., "")`. -/
def ruralKey : String :=
  "did_you_migrate_from_a_rural_area_to_this_urban_area"

/-- The value bound to the `rural_to_urban` parameter:
`str(row.get(ruralKey, "")).strip().lower() == "yes"`. -/
def ruralParam (df : DFrame) (i : Nat) : PVal :=
  .vBool (ruralCoerce (rowGetD df i ruralKey (.vStr "")))

/-- The columns looked up with plain `row[...]` (a missing one raises),
in the evaluation order of the INSERT parameter tuple. -/
def expectedKeys : List String :=
  ["start", "end", "gender",
   "current_highest_level_of_education",
   "province_of_origin",
   "what_was_your_age_range_at_the_time_of_migration",
   "what_is_your_current_employment_status_in_this_urban_area",
   "how_many_months_did_it_take_you_to_get_your_first_job_after_arriving_in_the_city",
   "what_is_your_current_average_monthly_income_(rwf)",
   "in_the_last_12_months,_how_many_job_applications_have_you_submitted_in_this_urban_area",
   "how_many_times_have_you_changed_jobs_since_moving_to_the_city"]

/-- Sequential evaluation of fallible lookups, stopping at the first
error (the order in which Python evaluates the tuple elements). -/
def exMapM {α β : Type} (f : α → Except PipeError β) :
    List α → Except PipeError (List β)
  | [] => .ok []
  | x :: xs =>
    match f x with
    | .error e => .error e
    | .ok v =>
      match exMapM f xs with
      | .error e => .error e
      | .ok vs => .ok (v :: vs)

/-- Building the 12-element INSERT parameter tuple for row `i`:
the eleven hard lookups in order, the defaulting boolean coercion
interleaved at position 7, and `or 0` on the four integer fields. -/
def buildParams (df : DFrame) (i : Nat) : Except PipeError (List PVal) :=
  match exMapM (rowGet df i) expectedKeys with
  | .error e => .error e
  | .ok vs =>
    .ok [vs.getD 0 .vNaN, vs.getD 1 .vNaN, vs.getD 2 .vNaN,
         vs.getD 3 .vNaN, vs.getD 4 .vNaN, vs.getD 5 .vNaN,
         ruralParam df i, vs.getD 6 .vNaN,
         pyOr0 (vs.getD 7 .vNaN), pyOr0 (vs.getD 8 .vNaN),
         pyOr0 (vs.getD 9 .vNaN), pyOr0 (vs.getD 10 .vNaN)]

/-- psycopg2 adapts the whole parameter tuple before executing. -/
def adaptParams (ps : List PVal) : Except PipeError (List SqlVal) :=
  exMapM adapt ps

/-- The `for _, row in df.iterrows()` insert loop over row indices,
extending the statement trace; the first failing row aborts the loop
before its INSERT is executed. -/
def runInserts (df : DFrame) (acc : List SqlStmt) :
    List Nat → List SqlStmt × Option PipeError
  | [] => (acc, none)
  | i :: rest =>
    match buildParams df i with
    | .error e => (acc, some e)
    | .ok ps =>
      match adaptParams ps with
      | .error e => (acc, some e)
      | .ok vs =>
        runInserts df (acc ++ [.insertRow schemaName tableName vs]) rest

/-- Step 1 of the script: `if response.status_code != 200: raise ...`,
otherwise the raw body is returned unchanged. -/
def fetchData {α : Type} (status : Nat) (body : α) : Except PipeError α :=
  if status ≠ 200 then .error (.fetchError status) else .ok body

/-- A run's input: the HTTP response status and its CSV body. -/
structure RunInput where
  status : Nat
  body : RawCsv
  deriving DecidableEq, Repr

/-- Observable database session state at the end of a run: the executed
statements, whether connection and cursor are still open, and whether
the transaction was committed. -/
structure DbState where
  executed : List SqlStmt
  connOpen : Bool
  curOpen : Bool
  committed : Bool
  deriving DecidableEq, Repr

/-- State before `psycopg2.connect` is reached. -/
def noDb : DbState := ⟨[], false, false, false⟩

/-- Final state of a run. -/
structure RunOutcome where
  db : DbState
  error : Option PipeError
  deriving DecidableEq, Repr

/-- Loader stage: connect, the three DDL statements, the insert loop over
all row indices, then `conn.commit(); cur.close(); conn.close()`.  The
script has no try/finally, so on any failure the connection and cursor
stay open; the closes run only after a successful commit. -/
def loadStage (df : DFrame) : RunOutcome :=
  match runInserts df ddlStmts (List.range (nRows df)) with
  | (stmts, some e) => ⟨⟨stmts, true, true, false⟩, some e⟩
  | (stmts, none) => ⟨⟨stmts ++ [.commit], false, false, true⟩, none⟩

/-- The run after a successful fetch: normalization happens entirely
before `psycopg2.connect`, so its failure leaves the database untouched. -/
def afterFetch (p : String → Option Int) (raw : RawCsv) : RunOutcome :=
  match normalize p raw with
  | .error e => ⟨noDb, some e⟩
  | .ok df => loadStage df

/-- The whole script: fetch, normalize, connect, DDL, insert loop,
commit, close. -/
def runPipeline (p : String → Option Int) (inp : RunInput) : RunOutcome :=
  match fetchData inp.status inp.body with
  | .error e => ⟨noDb, some e⟩
  | .ok raw => afterFetch p raw

/-- Is a statement an INSERT? -/
def isInsert : SqlStmt → Bool
  | .insertRow _ _ _ => true
  | _ => false

/-- Does the trace contain an INSERT? -/
def hasInsert (l : List SqlStmt) : Bool := l.any isInsert

/-! ### Concrete sample runs

A toy instantiation of the timestamp-parser oracle and a few concrete
inputs, used to evaluate the pipeline at specific scenarios. -/

/-- Toy timestamp grammar: only the literal "t0" parses (to epoch 0). -/
def p1 : String → Option Int := fun s => if s = "t0" then some 0 else none

/-- The twelve source headers, already in canonical form (each is a fixed
point of `canonHeader`), with the rural-migration column included. -/
def allHeaders : List String :=
  ["start", "end", "gender",
   "current_highest_level_of_education",
   "province_of_origin",
   "what_was_your_age_range_at_the_time_of_migration",
   "did_you_migrate_from_a_rural_area_to_this_urban_area",
   "what_is_your_current_employment_status_in_this_urban_area",
   "how_many_months_did_it_take_you_to_get_your_first_job_after_arriving_in_the_city",
   "what_is_your_current_average_monthly_income_(rwf)",
   "in_the_last_12_months,_how_many_job_applications_have_you_submitted_in_this_urban_area",
   "how_many_times_have_you_changed_jobs_since_moving_to_the_city"]

/-- A well-formed data row matching `allHeaders`; its rural-migration
cell is the mixed-case, trailing-space "YES ". -/
def sampleRow : List (Option String) :=
  [some "t0", some "t0", some "male", some "secondary", some "kigali",
   some "18_25", some "YES ", some "employed", some "4", some "150000",
   some "12", some "2"]

/-- Scenario input: one good row with rural-migration "YES ". -/
def inpYes : RunInput := ⟨200, ⟨allHeaders, [sampleRow]⟩⟩

/-- Like `sampleRow` but with an unparseable start timestamp. -/
def badTsRow : List (Option String) :=
  [some "garbage", some "t0", some "male", some "secondary", some "kigali",
   some "18_25", some "YES ", some "employed", some "4", some "150000",
   some "12", some "2"]

/-- Scenario input: one row whose start timestamp does not parse. -/
def inpBadTs : RunInput := ⟨200, ⟨allHeaders, [badTsRow]⟩⟩

/-- The headers with the monthly-income column omitted. -/
def hdrNoIncome : List String :=
  ["start", "end", "gender",
   "current_highest_level_of_education",
   "province_of_origin",
   "what_was_your_age_range_at_the_time_of_migration",
   "did_you_migrate_from_a_rural_area_to_this_urban_area",
   "what_is_your_current_employment_status_in_this_urban_area",
   "how_many_months_did_it_take_you_to_get_your_first_job_after_arriving_in_the_city",
   "in_the_last_12_months,_how_many_job_applications_have_you_submitted_in_this_urban_area",
   "how_many_times_have_you_changed_jobs_since_moving_to_the_city"]

/-- A data row matching `hdrNoIncome`. -/
def rowNoIncome : List (Option String) :=
  [some "t0", some "t0", some "male", some "secondary", some "kigali",
   some "18_25", some "YES ", some "employed", some "4", some "12", some "2"]

/-- Scenario input: one data row, monthly-income header omitted. -/
def inpNoIncome : RunInput := ⟨200, ⟨hdrNoIncome, [rowNoIncome]⟩⟩

/-- Scenario input: monthly-income header omitted, zero data rows. -/
def inpNoIncomeEmpty : RunInput := ⟨200, ⟨hdrNoIncome, []⟩⟩

/-- Scenario input: zero data rows and no start/end headers at all. -/
def inpNoStartEmpty : RunInput := ⟨200, ⟨["gender"], []⟩⟩

/-- Scenario input: zero data rows, only the two timestamp headers. -/
def inpEmptyOk : RunInput := ⟨200, ⟨["start", "end"], []⟩⟩

/-- A one-row frame over exactly the eleven hard-looked-up columns. -/
def dfExpected : DFrame := ⟨expectedKeys, List.replicate 11 [PVal.vStr "x"]⟩

/-- Did a fallible computation succeed? -/
def exOk {α : Type} : Except PipeError α → Bool
  | .ok _ => true
  | .error _ => false

/-- Characters that survive the canonicalization chain: not whitespace,
none of the replaced characters, and lowercase-stable. -/
abbrev goodChar (x : Char) : Prop :=
  isPyWs x = false ∧ x ≠ '?' ∧ x ≠ '&' ∧ x ≠ '-' ∧ lowerChar x = x

/-! ### Lemmas about the string primitives -/

theorem mem_replaceCharList {x c : Char} {r : List Char} :
    ∀ {l : List Char}, x ∈ replaceCharList c r l → x ∈ r ∨ (x ∈ l ∧ x ≠ c)
  | [], h => by simp [replaceCharList] at h
  | a :: t, h => by
    unfold replaceCharList at h
    by_cases hac : a = c
    · rw [if_pos hac] at h
      rcases List.mem_append.mp h with h1 | h2
      · exact .inl h1
      · rcases mem_replaceCharList h2 with h3 | ⟨h4, h5⟩
        · exact .inl h3
        · exact .inr ⟨List.mem_cons_of_mem a h4, h5⟩
    · rw [if_neg hac] at h
      rcases List.mem_cons.mp h with h1 | h2
      · exact .inr ⟨List.mem_cons.mpr (.inl h1), h1 ▸ hac⟩
      · rcases mem_replaceCharList h2 with h3 | ⟨h4, h5⟩
        · exact .inl h3
        · exact .inr ⟨List.mem_cons_of_mem a h4, h5⟩

theorem replaceCharList_eq_self {c : Char} {r l : List Char} (h : c ∉ l) :
    replaceCharList c r l = l := by
  induction l with
  | nil => rfl
  | cons a t ih =>
    rw [List.mem_cons] at h
    push_neg at h
    obtain ⟨h1, h2⟩ := h
    unfold replaceCharList
    rw [if_neg (fun hac => h1 hac.symm), ih h2]

theorem dropWhile_eq_self_of {p : Char → Bool} {l : List Char}
    (h : ∀ x ∈ l, p x = false) : l.dropWhile p = l := by
  cases l with
  | nil => rfl
  | cons a t => simp [List.dropWhile, h a (List.mem_cons_self a t)]

theorem mem_of_mem_dropWhile {p : Char → Bool} {x : Char} {l : List Char}
    (h : x ∈ l.dropWhile p) : x ∈ l := by
  induction l with
  | nil => simp [List.dropWhile] at h
  | cons a t ih =>
    rw [List.dropWhile_cons] at h
    split at h
    · exact List.mem_cons_of_mem a (ih h)
    · exact h

theorem pyStripList_eq_self {l : List Char}
    (h : ∀ x ∈ l, isPyWs x = false) : pyStripList l = l := by
  unfold pyStripList
  rw [dropWhile_eq_self_of h,
    dropWhile_eq_self_of (fun x hx => h x (List.mem_reverse.mp hx)),
    List.reverse_reverse]

theorem mem_of_mem_pyStripList {x : Char} {l : List Char}
    (h : x ∈ pyStripList l) : x ∈ l := by
  unfold pyStripList at h
  rw [List.mem_reverse] at h
  have h2 := mem_of_mem_dropWhile h
  rw [List.mem_reverse] at h2
  exact mem_of_mem_dropWhile h2

theorem toNat_ofNat_small (n : Nat) (h : n < 55296) :
    (Char.ofNat n).toNat = n := by
  unfold Char.ofNat
  rw [dif_pos (Or.inl h)]
  rfl

theorem lowerChar_lowerChar (c : Char) :
    lowerChar (lowerChar c) = lowerChar c := by
  unfold lowerChar
  by_cases h : 65 ≤ c.toNat ∧ c.toNat ≤ 90
  · rw [if_pos h]
    have ht : (Char.ofNat (c.toNat + 32)).toNat = c.toNat + 32 :=
      toNat_ofNat_small _ (by omega)
    rw [if_neg (by rw [ht]; omega)]
  · rw [if_neg h, if_neg h]

theorem isPyWs_false_of (x : Char) (h : 14 ≤ x.toNat)
    (h2 : x.toNat ≠ 32) : isPyWs x = false := by
  have k : ∀ y : Char, x.toNat ≠ y.toNat → (x == y) = false := fun y hy =>
    beq_eq_false_iff_ne.mpr (fun he => hy (by rw [he]))
  unfold isPyWs
  rw [k ' ' h2, k '\t' (show x.toNat ≠ 9 by omega),
    k '\n' (show x.toNat ≠ 10 by omega),
    k '\x0b' (show x.toNat ≠ 11 by omega),
    k '\x0c' (show x.toNat ≠ 12 by omega),
    k '\r' (show x.toNat ≠ 13 by omega)]
  rfl

theorem isPyWs_lowerChar (c : Char) : isPyWs (lowerChar c) = isPyWs c := by
  unfold lowerChar
  by_cases h : 65 ≤ c.toNat ∧ c.toNat ≤ 90
  · rw [if_pos h]
    have ht : (Char.ofNat (c.toNat + 32)).toNat = c.toNat + 32 :=
      toNat_ofNat_small _ (by omega)
    rw [isPyWs_false_of (Char.ofNat (c.toNat + 32)) (by rw [ht]; omega)
        (by rw [ht]; omega),
      isPyWs_false_of c (by omega) (by omega)]
  · rw [if_neg h]

theorem map_eq_self_of {f : Char → Char} {l : List Char}
    (h : ∀ x ∈ l, f x = x) : l.map f = l := by
  induction l with
  | nil => rfl
  | cons a t ih =>
    rw [List.map_cons, h a (List.mem_cons_self a t),
      ih (fun x hx => h x (List.mem_cons_of_mem a hx))]

/-- Every character of a canonicalized header is canonicalization-stable,
provided the raw header's whitespace was all plain spaces. -/
theorem canonList_good {l : List Char}
    (hW : ∀ x ∈ l, isPyWs x = true → x = ' ') :
    ∀ x ∈ canonList l, goodChar x := by
  intro x hx
  unfold canonList at hx
  rcases mem_replaceCharList hx with h1 | ⟨hx, hd⟩
  · simp at h1; subst h1; decide
  · rcases mem_replaceCharList hx with h2 | ⟨hx, ha⟩
    · simp at h2
      rcases h2 with h2 | h2 | h2 <;> (subst h2; decide)
    · rcases mem_replaceCharList hx with h3 | ⟨hx, hsp⟩
      · simp at h3; subst h3; decide
      · rcases mem_replaceCharList hx with h4 | ⟨hx, hq⟩
        · simp at h4
        · obtain ⟨y, hy, rfl⟩ := List.mem_map.mp hx
          have hyl : y ∈ l := mem_of_mem_pyStripList hy
          refine ⟨?_, hq, ha, hd, lowerChar_lowerChar y⟩
          rw [isPyWs_lowerChar]
          by_cases hws : isPyWs y = true
          · have hy2 := hW y hyl hws
            subst hy2
            exact absurd (by decide) hsp
          · simpa using hws

/-- The chain is the identity on a list of canonicalization-stable
characters. -/
theorem canonList_eq_self {t : List Char} (hg : ∀ x ∈ t, goodChar x) :
    canonList t = t := by
  unfold canonList
  rw [pyStripList_eq_self (fun x hx => (hg x hx).1),
    map_eq_self_of (fun x hx => (hg x hx).2.2.2.2),
    replaceCharList_eq_self (fun h => (hg _ h).2.1 rfl),
    replaceCharList_eq_self (fun h => absurd (hg _ h).1 (by decide)),
    replaceCharList_eq_self (fun h => (hg _ h).2.2.1 rfl),
    replaceCharList_eq_self (fun h => (hg _ h).2.2.2.1 rfl)]

/-! ### Lemmas about lookups and the insert loop -/

theorem findKey_eq_none_iff {k : String} {l : List String} :
    findKey k l = none ↔ k ∉ l := by
  induction l with
  | nil => simp [findKey]
  | cons a t ih =>
    unfold findKey
    by_cases hak : a = k
    · subst hak
      simp
    · rw [if_neg hak, Option.map_eq_none', ih, List.mem_cons]
      constructor
      · intro h h2
        rcases h2 with h2 | h2
        · exact hak h2.symm
        · exact h h2
      · intro h h2
        exact h (Or.inr h2)

theorem findKey_isSome_of_mem {k : String} {l : List String} (h : k ∈ l) :
    ∃ j, findKey k l = some j := by
  cases hf : findKey k l with
  | none => exact absurd h (findKey_eq_none_iff.mp hf)
  | some j => exact ⟨j, rfl⟩

theorem rowGet_err_of_not_mem {df : DFrame} {i : Nat} {k : String}
    (h : k ∉ df.headers) : rowGet df i k = .error (.keyError k) := by
  unfold rowGet
  rw [findKey_eq_none_iff.mpr h]

theorem rowGet_ok_of_mem {df : DFrame} {i : Nat} {k : String}
    (h : k ∈ df.headers) : ∃ v, rowGet df i k = .ok v := by
  obtain ⟨j, hj⟩ := findKey_isSome_of_mem h
  refine ⟨(df.cols.getD j []).getD i .vNaN, ?_⟩
  unfold rowGet
  rw [hj]

theorem rowGet_mem_of_ok {df : DFrame} {i : Nat} {k : String} {v : PVal}
    (h : rowGet df i k = .ok v) : k ∈ df.headers := by
  by_contra hn
  rw [rowGet_err_of_not_mem hn] at h
  exact Except.noConfusion h

theorem exMapM_ok_forall {α β : Type} {f : α → Except PipeError β} :
    ∀ {l : List α} {vs : List β}, exMapM f l = .ok vs →
      ∀ x ∈ l, ∃ v, f x = .ok v := by
  intro l
  induction l with
  | nil =>
    intro vs h x hx
    simp at hx
  | cons a t ih =>
    intro vs h x hx
    cases hfa : f a with
    | error e =>
      simp only [exMapM, hfa] at h
      exact Except.noConfusion h
    | ok v =>
      cases hrec : exMapM f t with
      | error e2 =>
        simp only [exMapM, hfa, hrec] at h
        exact Except.noConfusion h
      | ok vs2 =>
        rcases List.mem_cons.mp hx with h1 | h2
        · subst h1
          exact ⟨v, hfa⟩
        · exact ih hrec x h2

theorem exMapM_ok_of_forall {α β : Type} {f : α → Except PipeError β} :
    ∀ {l : List α}, (∀ x ∈ l, ∃ v, f x = .ok v) →
      ∃ vs, exMapM f l = .ok vs := by
  intro l
  induction l with
  | nil => exact fun _ => ⟨[], rfl⟩
  | cons a t ih =>
    intro h
    obtain ⟨v, hv⟩ := h a (List.mem_cons_self a t)
    obtain ⟨vs, hvs⟩ := ih (fun x hx => h x (List.mem_cons_of_mem a hx))
    refine ⟨v :: vs, ?_⟩
    unfold exMapM
    rw [hv, hvs]

theorem buildParams_error_of_missing {df : DFrame} {i : Nat} {k : String}
    (hk : k ∈ expectedKeys) (hh : k ∉ df.headers) :
    ∃ e, buildParams df i = .error e := by
  cases hm : exMapM (rowGet df i) expectedKeys with
  | error e =>
    refine ⟨e, ?_⟩
    unfold buildParams
    rw [hm]
  | ok vs =>
    obtain ⟨v, hv⟩ := exMapM_ok_forall hm k hk
    rw [rowGet_err_of_not_mem hh] at hv
    exact Except.noConfusion hv

theorem buildParams_ok_iff {df : DFrame} {i : Nat} :
    exOk (buildParams df i) = true ↔ ∀ k ∈ expectedKeys, k ∈ df.headers := by
  constructor
  · intro h k hk
    cases hm : exMapM (rowGet df i) expectedKeys with
    | error e =>
      unfold buildParams at h
      rw [hm] at h
      simp [exOk] at h
    | ok vs =>
      obtain ⟨v, hv⟩ := exMapM_ok_forall hm k hk
      exact rowGet_mem_of_ok hv
  · intro h
    obtain ⟨vs, hvs⟩ :=
      exMapM_ok_of_forall (fun x hx => rowGet_ok_of_mem (h x hx))
    unfold buildParams
    rw [hvs]
    rfl

theorem runInserts_cons_err {df : DFrame} {acc : List SqlStmt} {i : Nat}
    {rest : List Nat} {e : PipeError} (h : buildParams df i = .error e) :
    runInserts df acc (i :: rest) = (acc, some e) := by
  unfold runInserts
  rw [h]

/-! ### Lemmas about the normalizer and the staged run -/

theorem nRows_whereNotNull (df : DFrame) :
    nRows (whereNotNull df) = nRows df := by
  unfold whereNotNull nRows
  cases df.cols with
  | nil => rfl
  | cons c rest => simp

theorem nRows_mapColAt (df : DFrame) (j : Nat) (f : PVal → PVal) :
    nRows (mapColAt df j f) = nRows df := by
  unfold mapColAt nRows
  cases df.cols with
  | nil => rfl
  | cons c rest =>
    cases j with
    | zero => simp [List.set]
    | succ m => simp [List.set]

theorem inferColumn_length (cells : List (Option String)) :
    (inferColumn cells).length = cells.length := by
  unfold inferColumn
  split <;> simp

theorem nRows_readCsv (raw : RawCsv) (h : raw.headers ≠ []) :
    nRows (readCsv raw) = (parseRows raw.headers.length raw.rows).length := by
  obtain ⟨a, t, hh⟩ := List.exists_cons_of_ne_nil h
  unfold readCsv nRows
  rw [hh]
  simp only [List.length_cons, List.range_succ_eq_map, List.map_cons]
  rw [inferColumn_length]
  simp [colCells]

theorem normalize_err_start {p : String → Option Int} {raw : RawCsv}
    (hs : "start" ∉ raw.headers.map canonHeader) :
    normalize p raw = .error (.keyError "start") := by
  unfold normalize
  rw [findKey_eq_none_iff.mpr hs]

theorem normalize_err_end {p : String → Option Int} {raw : RawCsv}
    (hs : "start" ∈ raw.headers.map canonHeader)
    (he : "end" ∉ raw.headers.map canonHeader) :
    normalize p raw = .error (.keyError "end") := by
  obtain ⟨j, hj⟩ := findKey_isSome_of_mem hs
  unfold normalize
  rw [hj, findKey_eq_none_iff.mpr he]

theorem normalize_ok_of_mem {p : String → Option Int} {raw : RawCsv}
    (hs : "start" ∈ raw.headers.map canonHeader)
    (he : "end" ∈ raw.headers.map canonHeader) :
    ∃ df, normalize p raw = .ok df ∧
      df.headers = raw.headers.map canonHeader ∧
      nRows df = nRows (readCsv raw) := by
  obtain ⟨j, hj⟩ := findKey_isSome_of_mem hs
  obtain ⟨j2, hj2⟩ := findKey_isSome_of_mem he
  refine ⟨mapColAt (mapColAt (whereNotNull
      ⟨raw.headers.map canonHeader, (readCsv raw).cols⟩)
      j (toDatetimeCoerce p)) j2 (toDatetimeCoerce p), ?_, rfl, ?_⟩
  · unfold normalize
    rw [hj, hj2]
  · rw [nRows_mapColAt, nRows_mapColAt, nRows_whereNotNull]
    rfl

theorem fetchData_ok {α : Type} (body : α) :
    fetchData 200 body = .ok body := rfl

theorem runPipeline_fetch_ok (p : String → Option Int) (inp : RunInput)
    (hst : inp.status = 200) :
    runPipeline p inp = afterFetch p inp.body := by
  unfold runPipeline
  rw [hst, fetchData_ok]

theorem afterFetch_ok {p : String → Option Int} {raw : RawCsv} {df : DFrame}
    (h : normalize p raw = .ok df) : afterFetch p raw = loadStage df := by
  unfold afterFetch
  rw [h]

theorem afterFetch_err {p : String → Option Int} {raw : RawCsv}
    {e : PipeError} (h : normalize p raw = .error e) :
    afterFetch p raw = ⟨noDb, some e⟩ := by
  unfold afterFetch
  rw [h]

theorem loadStage_err {df : DFrame} {stmts : List SqlStmt} {e : PipeError}
    (h : runInserts df ddlStmts (List.range (nRows df)) = (stmts, some e)) :
    loadStage df = ⟨⟨stmts, true, true, false⟩, some e⟩ := by
  unfold loadStage
  rw [h]

theorem loadStage_ok {df : DFrame} {stmts : List SqlStmt}
    (h : runInserts df ddlStmts (List.range (nRows df)) = (stmts, none)) :
    loadStage df = ⟨⟨stmts ++ [.commit], false, false, true⟩, none⟩ := by
  unfold loadStage
  rw [h]

/-! ### The claims -/

/-- Claim C1, amended: the fetcher succeeds exactly on HTTP status 200,
returning the raw response body; every other status — including the
other 2xx statuses — fails with a fetch error carrying the status code;
no status does neither. -/
theorem c1_fetch_status (status : Nat) (body : String) :
    (fetchData status body = .ok body ↔ status = 200) ∧
      (status ≠ 200 → fetchData status body = .error (.fetchError status)) := by
  constructor
  · constructor
    · intro h
      by_contra hne
      unfold fetchData at h
      rw [if_pos hne] at h
      exact Except.noConfusion h
    · intro h
      subst h
      exact fetchData_ok body
  · intro h
    unfold fetchData
    rw [if_pos h]

/-- Claim C1 counterexample: status 201 is 2xx-equivalent, yet the fetch
step fails on it (the script tests `status_code != 200`), refuting
"succeeds on every 2xx-equivalent HTTP status". -/
theorem c1_counterexample :
    (200 ≤ 201 ∧ 201 < 300) ∧
      fetchData 201 "payload" ≠ .ok "payload" ∧
      fetchData 201 "payload" = .error (.fetchError 201) :=
  ⟨by decide, fun h => Except.noConfusion h, rfl⟩

/-- Claim C1 witness: the amended statement at statuses 200 and 404. -/
theorem c1_fetch_status_witness :
    fetchData 200 "payload" = .ok "payload" ∧
      fetchData 404 "payload" = .error (.fetchError 404) :=
  ⟨(c1_fetch_status 200 "payload").1.mpr rfl,
   (c1_fetch_status 404 "payload").2 (by decide)⟩

/-- Claim C2, amended: for every input CSV with at least one parsed data
row whose canonicalized header lacks one of the expected (hard-looked-up)
fields, the run aborts with an error and no INSERT is ever executed. -/
theorem c2_missing_header_aborts (p : String → Option Int) (inp : RunInput)
    (hst : inp.status = 200)
    (hk : ∃ k ∈ expectedKeys, k ∉ inp.body.headers.map canonHeader)
    (hr : 0 < (parseRows inp.body.headers.length inp.body.rows).length) :
    (runPipeline p inp).error.isSome = true ∧
      hasInsert (runPipeline p inp).db.executed = false := by
  obtain ⟨k, hkm, hka⟩ := hk
  rw [runPipeline_fetch_ok p inp hst]
  by_cases hs : "start" ∈ inp.body.headers.map canonHeader
  · by_cases he : "end" ∈ inp.body.headers.map canonHeader
    · obtain ⟨df, hdf, hheads, hnr⟩ := normalize_ok_of_mem hs he (p := p)
      have hne : inp.body.headers ≠ [] := by
        intro h0
        rw [h0] at hs
        simp at hs
      obtain ⟨m, hm⟩ : ∃ m, nRows df = m + 1 := by
        have hcount : nRows df
            = (parseRows inp.body.headers.length inp.body.rows).length := by
          rw [hnr, nRows_readCsv _ hne]
        refine ⟨nRows df - 1, ?_⟩
        omega
      have hka2 : k ∉ df.headers := by
        rw [hheads]
        exact hka
      obtain ⟨e, hbp⟩ := buildParams_error_of_missing hkm hka2
      rw [afterFetch_ok hdf, loadStage_err
        (by rw [hm, List.range_succ_eq_map]; exact runInserts_cons_err hbp)]
      exact ⟨rfl, rfl⟩
    · rw [afterFetch_err (normalize_err_end hs he)]
      exact ⟨rfl, rfl⟩
  · rw [afterFetch_err (normalize_err_start hs)]
    exact ⟨rfl, rfl⟩

/-- Claim C2 counterexample: a CSV whose header lacks the monthly-income
field but which has zero data rows completes the run with a commit and
no abort at all, refuting "for every input CSV ... the run aborts". -/
theorem c2_counterexample :
    "what_is_your_current_average_monthly_income_(rwf)" ∈ expectedKeys ∧
      "what_is_your_current_average_monthly_income_(rwf)"
        ∉ inpNoIncomeEmpty.body.headers.map canonHeader ∧
      (runPipeline p1 inpNoIncomeEmpty).error = none ∧
      (runPipeline p1 inpNoIncomeEmpty).db.committed = true := by
  refine ⟨by decide, by decide, rfl, rfl⟩

/-- Claim C2 witness: the amended statement at the one-row
missing-income input. -/
theorem c2_missing_header_aborts_witness :
    (runPipeline p1 inpNoIncome).error.isSome = true ∧
      hasInsert (runPipeline p1 inpNoIncome).db.executed = false :=
  c2_missing_header_aborts p1 inpNoIncome rfl
    ⟨"what_is_your_current_average_monthly_income_(rwf)", by decide, by decide⟩
    (by decide)

/-- Claim C3: the boolean coercion is true exactly when the stripped,
lowercased string value equals "yes"; a missing value (Python None,
whose str() is "None") gives false; and the "YES " scenario run stores
boolean true in its INSERT. -/
theorem c3_rural_boolean :
    (∀ s : String, ruralCoerce (.vStr s) = (pyLower (pyStrip s) == "yes")) ∧
      ruralCoerce .vNone = false ∧
      runPipeline p1 inpYes = ⟨⟨ddlStmts ++ [.insertRow schemaName tableName
        [.timestamp 0, .timestamp 0, .text "male", .text "secondary",
         .text "kigali", .text "18_25", .bool true, .text "employed",
         .int 4, .int 150000, .int 12, .int 2], .commit],
        false, false, true⟩, none⟩ := by
  refine ⟨fun s => rfl, rfl, ?_⟩
  rfl

/-- Claim C4, amended: the canonicalization chain is deterministic and
idempotent on every header string whose whitespace characters are all
plain spaces (removing a literal question mark can expose other
whitespace, such as a tab, at the boundary; only a second application
would strip it, so unrestricted idempotence fails). -/
theorem c4_canon_idempotent (s : String)
    (h : ∀ c ∈ s.data, isPyWs c = true → c = ' ') :
    canonHeader (canonHeader s) = canonHeader s :=
  congrArg String.mk (canonList_eq_self (canonList_good h))

/-- Claim C4 counterexample: one application maps the header "?\ta" to
"\ta" (the question-mark removal exposes a leading tab after stripping
already happened), and a second application strips the tab, refuting
idempotence on every raw header string. -/
theorem c4_counterexample :
    canonHeader (canonHeader "?\ta") ≠ canonHeader "?\ta" := by
  decide

/-- Claim C4 witness: idempotence at a realistic question-text header. -/
theorem c4_canon_idempotent_witness :
    (∀ c ∈ ("Did you migrate from a Rural Area to this Urban Area?"
        : String).data, isPyWs c = true → c = ' ') ∧
      canonHeader (canonHeader
          "Did you migrate from a Rural Area to this Urban Area?")
        = canonHeader "Did you migrate from a Rural Area to this Urban Area?" :=
  ⟨by decide, c4_canon_idempotent _ (by decide)⟩

/-- Claim C5 (a code bug): an unparseable start value is coerced to NaT,
not to the absent-value marker None — the NaN→None conversion runs
before `pd.to_datetime` — and NaT is not storable, so the scenario run
aborts at the first INSERT with the connection left open instead of
storing SQL NULL. -/
theorem c5_unparseable_timestamp_fails :
    toDatetimeCoerce p1 (whereVal (.vStr "garbage")) = .vNaT ∧
      toDatetimeCoerce p1 (whereVal .vNaN) = .vNaT ∧
      adapt .vNaT = .error (.adaptError "NaT") ∧
      runPipeline p1 inpBadTs
        = ⟨⟨ddlStmts, true, true, false⟩, some (.adaptError "NaT")⟩ := by
  refine ⟨rfl, rfl, rfl, rfl⟩

/-- Claim C6: the integer coercion of the four numeric fields yields 0
for a missing (None) or zero cell and the parsed integer otherwise; and
a column whose present cells all parse as integers is inferred as an
integer column. -/
theorem c6_integer_coercion :
    (∀ c : Option String,
        pyOr0 (whereVal (intCellOf c)) = .vInt ((c.bind parseIntStr).getD 0)) ∧
      ∀ cells : List (Option String),
        cells.all intParses = true → inferColumn cells = cells.map intCellOf := by
  constructor
  · intro c
    cases c with
    | none => rfl
    | some s =>
      cases hp : parseIntStr s with
      | none => simp [intCellOf, whereVal, pyOr0, pyTruthy, hp]
      | some n =>
        by_cases hn : n = 0
        · subst hn
          simp [intCellOf, whereVal, pyOr0, pyTruthy, hp]
        · simp [intCellOf, whereVal, pyOr0, pyTruthy, hp, hn]
  · intro cells h
    unfold inferColumn
    rw [if_pos h]

/-- Claim C6 witness: the coercion at concrete cells "5", missing, "0",
and "7". -/
theorem c6_integer_coercion_witness :
    ([some "5", none, some "0"] : List (Option String)).all intParses = true ∧
      inferColumn [some "5", none, some "0"]
        = [PVal.vInt 5, PVal.vNaN, PVal.vInt 0] ∧
      pyOr0 (whereVal (intCellOf (some "7"))) = PVal.vInt 7 :=
  ⟨by decide,
   (c6_integer_coercion.2 _ (by decide)).trans (by decide),
   (c6_integer_coercion.1 (some "7")).trans (by decide)⟩

/-- Claim C7: a fetch with a non-200 status aborts the run with the
fetch error before `psycopg2.connect` is ever reached: no statement is
executed and the table keeps its prior state. -/
theorem c7_fetch_failure_leaves_db (p : String → Option Int)
    (inp : RunInput) (h : inp.status ≠ 200) :
    runPipeline p inp = ⟨noDb, some (.fetchError inp.status)⟩ ∧
      (runPipeline p inp).db.executed = [] := by
  have hf : fetchData inp.status inp.body
      = (.error (.fetchError inp.status) : Except PipeError RawCsv) := by
    unfold fetchData
    rw [if_pos h]
  have hmain : runPipeline p inp = ⟨noDb, some (.fetchError inp.status)⟩ := by
    unfold runPipeline
    rw [hf]
  exact ⟨hmain, by rw [hmain]; rfl⟩

/-- Claim C7 witness: the 401 scenario. -/
theorem c7_fetch_failure_witness :
    runPipeline p1 ⟨401, ⟨allHeaders, [sampleRow]⟩⟩
        = ⟨noDb, some (.fetchError 401)⟩ ∧
      (runPipeline p1 ⟨401, ⟨allHeaders, [sampleRow]⟩⟩).db.executed = [] :=
  c7_fetch_failure_leaves_db p1 ⟨401, ⟨allHeaders, [sampleRow]⟩⟩ (by decide)

/-- Claim C8 (a code bug): the script has no try/finally around the
connection and cursor, so the one-row run whose header lacks the
monthly-income field terminates with the KeyError while both the
connection and the cursor are still open. -/
theorem c8_connection_leaked :
    (runPipeline p1 inpNoIncome).error
        = some (.keyError "what_is_your_current_average_monthly_income_(rwf)") ∧
      (runPipeline p1 inpNoIncome).db.connOpen = true ∧
      (runPipeline p1 inpNoIncome).db.curOpen = true := by
  refine ⟨rfl, rfl, rfl⟩

/-- Claim C9: the rural-migration column is the only looked-up field
whose absence does not abort the run — it is not among the hard-looked-up
keys, its defaulting lookup yields the empty string, whose coercion is
false, and the insert loop succeeds exactly when all hard-looked-up keys
are present. -/
theorem c9_rural_lookup_defaults (df : DFrame) (i : Nat)
    (h : ruralKey ∉ df.headers) :
    ruralKey ∉ expectedKeys ∧
      ruralParam df i = .vBool false ∧
      (exOk (buildParams df i) = true ↔ ∀ k ∈ expectedKeys, k ∈ df.headers) := by
  refine ⟨by decide, ?_, buildParams_ok_iff⟩
  unfold ruralParam rowGetD
  rw [findKey_eq_none_iff.mpr h]
  rfl

/-- Claim C9 witness: a frame with all eleven expected columns and no
rural-migration column builds its parameters and stores false. -/
theorem c9_rural_lookup_defaults_witness :
    ruralKey ∉ dfExpected.headers ∧
      ruralParam dfExpected 0 = .vBool false ∧
      exOk (buildParams dfExpected 0) = true :=
  ⟨by decide,
   (c9_rural_lookup_defaults dfExpected 0 (by decide)).2.1,
   (c9_rural_lookup_defaults dfExpected 0 (by decide)).2.2.mpr (by decide)⟩

/-- Claim C10, amended: a CSV that parses to zero data rows and whose
canonicalized header still contains the two timestamp columns runs to
completion: schema created, table dropped and recreated, commit — an
empty table — with no abort even if every other expected data header is
absent, because the per-row lookups never execute. -/
theorem c10_empty_table_when_no_rows (p : String → Option Int)
    (inp : RunInput) (hst : inp.status = 200)
    (hs : "start" ∈ inp.body.headers.map canonHeader)
    (he : "end" ∈ inp.body.headers.map canonHeader)
    (hr : parseRows inp.body.headers.length inp.body.rows = []) :
    runPipeline p inp = ⟨⟨ddlStmts ++ [.commit], false, false, true⟩, none⟩ := by
  obtain ⟨df, hdf, hheads, hnr⟩ := normalize_ok_of_mem hs he (p := p)
  have hne : inp.body.headers ≠ [] := by
    intro h0
    rw [h0] at hs
    simp at hs
  have h0 : nRows df = 0 := by
    rw [hnr, nRows_readCsv _ hne, hr]
    rfl
  rw [runPipeline_fetch_ok p inp hst, afterFetch_ok hdf]
  exact loadStage_ok (by rw [h0]; rfl)

/-- Claim C10 counterexample: with zero data rows but no "start" header,
the column-level timestamp lookup aborts the run before any database
statement — no drop, no create, no commit — refuting "raises no
schema-mismatch error even when expected data headers are absent". -/
theorem c10_counterexample :
    (runPipeline p1 inpNoStartEmpty).error = some (.keyError "start") ∧
      (runPipeline p1 inpNoStartEmpty).db.executed = [] ∧
      (runPipeline p1 inpNoStartEmpty).db.committed = false := by
  refine ⟨rfl, rfl, rfl⟩

/-- Claim C10 witness: the amended statement at a concrete zero-row
input carrying only the start and end headers. -/
theorem c10_empty_table_witness :
    runPipeline p1 inpEmptyOk
      = ⟨⟨ddlStmts ++ [SqlStmt.commit], false, false, true⟩, none⟩ :=
  c10_empty_table_when_no_rows p1 inpEmptyOk rfl (by decide) (by decide)
    (by decide)

end Pipeline
